import Mathlib

/-!
Verification of the Structured-Output Recovery and Grading Engine of the
learning-platform backend.

The definitions below are a shallow embedding of the Python sources:

* `extract_json`            embeds `extract_json` of `utils.py`
* `submit_topic_quiz`       embeds the grading core of `submit_topic_quiz`
                            in `api/learning_path_api.py`
* `submit_ai_quiz`          embeds the grading core of `submit_ai_quiz`
                            in `ai_quiz_generator.py`
* `process_learning_path_query` embeds the retry loop of `learning_path.py`
* `lp_schema_ok` and `quiz_schema_ok` embed the shape checks of
  `learning_path.py` and `generate_ai_quiz` of `ai_quiz_generator.py`

Modelling conventions: Python strings are `String` viewed as `List Char`;
`json.loads` is modelled by a total fuel-based recursive-descent parser for
strict JSON (plus the `NaN` and `Infinity` literals that the Python `json`
module accepts by default); numbers are represented as rationals, so the
binary floating-point representation of parsed decimals is idealised;
Python `re` character classes are modelled over ASCII; database writes,
logging and chat-history storage are side effects with no influence on the
returned values and are elided.  Exceptions are modelled as `Option` or
`Except` results.
-/

/- Rational arithmetic is used for Python float computations; the kernel
must be able to evaluate it on concrete inputs. -/
attribute [local semireducible] Rat.mul Rat.inv Rat.add Rat.sub

/-! ## Characters and Python-style string helpers -/

/-- The brace and backtick characters, named once. -/
def lbraceChar : Char := Char.ofNat 123

def rbraceChar : Char := Char.ofNat 125

def btickChar : Char := Char.ofNat 96

/-- Whitespace for Python `str.strip` / `str.split` and for the ASCII
reading of the regex class `\s`: space, tab, newline, carriage return,
vertical tab, form feed. -/
def pyWsChar (c : Char) : Bool :=
  c = ' ' || c = '\t' || c = '\n' || c = '\r' || c = Char.ofNat 11 || c = Char.ofNat 12

/-- Whitespace accepted between tokens by the strict JSON grammar. -/
def jsonWsChar (c : Char) : Bool :=
  c = ' ' || c = '\t' || c = '\n' || c = '\r'

def dropWhileWs (cs : List Char) : List Char := cs.dropWhile pyWsChar

/-- Python `str.strip()` on a character list. -/
def pyStripList (cs : List Char) : List Char :=
  (dropWhileWs ((dropWhileWs cs.reverse).reverse))

/-- Python `str.strip()`. -/
def pyStrip (s : String) : String := String.mk (pyStripList s.data)

def asciiLowerChar (c : Char) : Char :=
  if 'A' ≤ c && c ≤ 'Z' then Char.ofNat (c.toNat + 32) else c

def asciiUpperChar (c : Char) : Char :=
  if 'a' ≤ c && c ≤ 'z' then Char.ofNat (c.toNat - 32) else c

/-- Python `str.lower()` restricted to ASCII. -/
def asciiLower (s : String) : String := String.mk (s.data.map asciiLowerChar)

/-- Python `str.upper()` restricted to ASCII. -/
def asciiUpper (s : String) : String := String.mk (s.data.map asciiUpperChar)

/-- Does `needle` occur at the head of `hay`? -/
def listStartsWith : List Char → List Char → Bool
  | [], _ => true
  | _ :: _, [] => false
  | n :: ns, h :: hs => n = h && listStartsWith ns hs

/-- Python `a in b` for strings: `needle` occurs somewhere inside `hay`. -/
def isSubList (needle : List Char) : List Char → Bool
  | [] => listStartsWith needle []
  | c :: rest => listStartsWith needle (c :: rest) || isSubList needle rest

/-- Index of the first occurrence of `needle` in `hay`, if any. -/
def findSubIdxAux (needle : List Char) : List Char → Nat → Option Nat
  | [], i => if needle.isEmpty then some i else none
  | c :: rest, i =>
    if listStartsWith needle (c :: rest) then some i
    else findSubIdxAux needle rest (i + 1)

def findSubIdx (hay needle : List Char) : Option Nat := findSubIdxAux needle hay 0

/-- Index of the first occurrence of character `ch` in `cs` at or after
position `from0`, as an absolute index. -/
def findCharIdxFrom (cs : List Char) (ch : Char) (from0 : Nat) : Option Nat :=
  match findSubIdx (cs.drop from0) [ch] with
  | some k => some (from0 + k)
  | none => none

/-- Python `str.split()` with no separator: split on whitespace runs,
dropping empty pieces.  First argument accumulates the current (reversed)
word. -/
def pySplitAux : List Char → List Char → List String
  | cur, [] => if cur.isEmpty then [] else [String.mk cur.reverse]
  | cur, c :: rest =>
    if pyWsChar c then
      if cur.isEmpty then pySplitAux [] rest
      else String.mk cur.reverse :: pySplitAux [] rest
    else pySplitAux (c :: cur) rest

def pySplit (s : String) : List String := pySplitAux [] s.data

/-- A `\w` character in the ASCII reading used for the short-answer
tokeniser: letters, digits, underscore. -/
def wordChar (c : Char) : Bool :=
  ('a' ≤ c && c ≤ 'z') || ('A' ≤ c && c ≤ 'Z') || ('0' ≤ c && c ≤ '9') || c = '_'

/-- Maximal runs of `\w` characters, which is what the regex
`\b\w\x7b3,\x7d\b` matches once runs shorter than 3 are dropped. -/
def wordRunsAux : List Char → List Char → List (List Char)
  | cur, [] => if cur.isEmpty then [] else [cur.reverse]
  | cur, c :: rest =>
    if wordChar c then wordRunsAux (c :: cur) rest
    else if cur.isEmpty then wordRunsAux [] rest
    else cur.reverse :: wordRunsAux [] rest

def wordRuns (cs : List Char) : List (List Char) := wordRunsAux [] cs

/-! ## The JSON value model and a model of `json.loads` -/

/-- Parsed JSON values.  `nan` and `inf` model the non-standard `NaN`,
`Infinity` and `-Infinity` literals that Python `json.loads` accepts by
default.  Object fields keep insertion order; a duplicate key overwrites
the earlier value in place, as a Python dict does. -/
inductive Json where
  | null : Json
  | bool (b : Bool) : Json
  | num (q : ℚ) : Json
  | nan : Json
  | inf (neg : Bool) : Json
  | str (s : String) : Json
  | arr (elems : List Json) : Json
  | obj (fields : List (String × Json)) : Json

/-- Python truthiness of a parsed JSON value (`bool(x)`). -/
def Json.truthy : Json → Bool
  | .null => false
  | .bool b => b
  | .num q => decide (q ≠ 0)
  | .nan => true
  | .inf _ => true
  | .str s => decide (s ≠ "")
  | .arr l => !l.isEmpty
  | .obj f => !f.isEmpty

def Json.isObjB : Json → Bool
  | .obj _ => true
  | _ => false

def Json.isArrB : Json → Bool
  | .arr _ => true
  | _ => false

/-- Lookup of a key in an object field list (the parser keeps keys
unique, so first match is the value). -/
def lookupKey : List (String × Json) → String → Option Json
  | [], _ => none
  | (k, v) :: rest, key => if k = key then some v else lookupKey rest key

/-- Python `d.get(k)` with `None` default, on a JSON value; yields `null`
when the value is not an object, which the callers below only ever use in
positions where the Python code would have failed anyway. -/
def Json.getKeyD (v : Json) (key : String) : Json :=
  match v with
  | .obj fs => (lookupKey fs key).getD Json.null
  | _ => Json.null

/-- Replace the value of `k` in place, or append, as assignment into a
Python dict does while building a literal with duplicate keys. -/
def insertKey : List (String × Json) → String → Json → List (String × Json)
  | [], k, v => [(k, v)]
  | (k0, v0) :: rest, k, v =>
    if k0 = k then (k0, v) :: rest else (k0, v0) :: insertKey rest k v

def skipJsonWs (cs : List Char) : List Char := cs.dropWhile jsonWsChar

def isDigitChar (c : Char) : Bool := '0' ≤ c && c ≤ '9'

def digitVal (c : Char) : Nat := c.toNat - 48

def hexVal (c : Char) : Option Nat :=
  if isDigitChar c then some (digitVal c)
  else if 'a' ≤ c && c ≤ 'f' then some (c.toNat - 87)
  else if 'A' ≤ c && c ≤ 'F' then some (c.toNat - 55)
  else none

/-- Digits of an integer literal, most significant first, as a natural. -/
def digitsToNat : List Char → Nat
  | [] => 0
  | c :: rest => digitsToNat rest + digitVal c * 10 ^ rest.length

def takeDigits (cs : List Char) : List Char × List Char :=
  (cs.takeWhile isDigitChar, cs.dropWhile isDigitChar)

/-- Parse a JSON string body after the opening quote: returns the decoded
string and the input after the closing quote.  Strict mode: raw control
characters and invalid escapes fail.  A `\u` escape outside the valid
scalar range decodes through `Char.ofNat`, which idealises Python
surrogate-pair handling. -/
def parseJStr : List Char → List Char → Option (String × List Char)
  | acc, '"' :: rest => some (String.mk acc.reverse, rest)
  | acc, '\\' :: esc :: rest =>
    if esc = '"' then parseJStr ('"' :: acc) rest
    else if esc = '\\' then parseJStr ('\\' :: acc) rest
    else if esc = '/' then parseJStr ('/' :: acc) rest
    else if esc = 'b' then parseJStr (Char.ofNat 8 :: acc) rest
    else if esc = 'f' then parseJStr (Char.ofNat 12 :: acc) rest
    else if esc = 'n' then parseJStr ('\n' :: acc) rest
    else if esc = 'r' then parseJStr ('\r' :: acc) rest
    else if esc = 't' then parseJStr ('\t' :: acc) rest
    else if esc = 'u' then
      match rest with
      | h1 :: h2 :: h3 :: h4 :: rest2 =>
        match hexVal h1, hexVal h2, hexVal h3, hexVal h4 with
        | some a, some b, some c, some d =>
          parseJStr (Char.ofNat (((a * 16 + b) * 16 + c) * 16 + d) :: acc) rest2
        | _, _, _, _ => none
      | _ => none
    else none
  | acc, c :: rest =>
    if c.toNat < 32 then none
    else if c = '"' then none
    else if c = '\\' then none
    else parseJStr (c :: acc) rest
  | _, [] => none

/-- Optional exponent suffix applied to a mantissa. -/
def parseJExp (mant : ℚ) (cs : List Char) : Option (ℚ × List Char) :=
  match cs with
  | e :: cs1 =>
    if e = 'e' || e = 'E' then
      let (esign, cs2) : Bool × List Char :=
        match cs1 with
        | '-' :: r => (true, r)
        | '+' :: r => (false, r)
        | _ => (false, cs1)
      match takeDigits cs2 with
      | ([], _) => none
      | (ed, cs3) =>
        let ev := digitsToNat ed
        let value : ℚ :=
          if esign then mant / ((10 : ℚ) ^ ev) else mant * ((10 : ℚ) ^ ev)
        some (value, cs3)
    else some (mant, cs)
  | [] => some (mant, cs)

/-- Parse the numeric literal grammar of strict JSON starting at a digit
or minus sign; returns the rational value and the rest. -/
def parseJNum (cs : List Char) : Option (ℚ × List Char) :=
  let (neg, cs1) : Bool × List Char :=
    match cs with
    | '-' :: rest => (true, rest)
    | _ => (false, cs)
  match takeDigits cs1 with
  | ([], _) => none
  | (intDigits, cs2) =>
    if intDigits.length > 1 && intDigits.headD '0' = '0' then none
    else
      let intPart : ℚ := (digitsToNat intDigits : ℚ)
      match cs2 with
      | '.' :: cs2a =>
        match takeDigits cs2a with
        | ([], _) => none
        | (fd, cs2b) =>
          let mant : ℚ := intPart + (digitsToNat fd : ℚ) / ((10 : ℚ) ^ fd.length)
          parseJExp (if neg then -mant else mant) cs2b
      | _ => parseJExp (if neg then -intPart else intPart) cs2

mutual

/-- Fuel-based recursive-descent parser for one JSON value; whitespace
before the value is skipped, trailing input is returned. -/
def parseJ : Nat → List Char → Option (Json × List Char)
  | 0, _ => none
  | Nat.succ fuel, cs =>
    match skipJsonWs cs with
    | [] => none
    | c :: rest =>
      if c = lbraceChar then parseJFields fuel true [] rest
      else if c = '[' then parseJElems fuel true [] rest
      else if c = '"' then
        match parseJStr [] rest with
        | some (s, rest2) => some (Json.str s, rest2)
        | none => none
      else if c = 't' then
        if listStartsWith ['r', 'u', 'e'] rest then some (Json.bool true, rest.drop 3)
        else none
      else if c = 'f' then
        if listStartsWith ['a', 'l', 's', 'e'] rest then some (Json.bool false, rest.drop 4)
        else none
      else if c = 'n' then
        if listStartsWith ['u', 'l', 'l'] rest then some (Json.null, rest.drop 3)
        else none
      else if c = 'N' then
        if listStartsWith ['a', 'N'] rest then some (Json.nan, rest.drop 2)
        else none
      else if c = 'I' then
        if listStartsWith ['n', 'f', 'i', 'n', 'i', 't', 'y'] rest then
          some (Json.inf false, rest.drop 7)
        else none
      else if c = '-' && listStartsWith ['I', 'n', 'f', 'i', 'n', 'i', 't', 'y'] rest then
        some (Json.inf true, rest.drop 8)
      else if c = '-' || isDigitChar c then
        match parseJNum (c :: rest) with
        | some (q, rest2) => some (Json.num q, rest2)
        | none => none
      else none

/-- Object members after the opening brace (`first` marks the position
right after the brace, where a closing brace is allowed). -/
def parseJFields : Nat → Bool → List (String × Json) → List Char →
    Option (Json × List Char)
  | 0, _, _, _ => none
  | Nat.succ fuel, first, acc, cs =>
    match skipJsonWs cs with
    | [] => none
    | c :: rest =>
      if c = rbraceChar && first then some (Json.obj acc, rest)
      else if c = '"' then
        match parseJStr [] rest with
        | some (k, rest2) =>
          match skipJsonWs rest2 with
          | ':' :: rest3 =>
            match parseJ fuel rest3 with
            | some (v, rest4) =>
              let acc2 := insertKey acc k v
              match skipJsonWs rest4 with
              | ',' :: rest5 => parseJFields fuel false acc2 rest5
              | c2 :: rest5 =>
                if c2 = rbraceChar then some (Json.obj acc2, rest5) else none
              | [] => none
            | none => none
          | _ => none
        | none => none
      else none

/-- Array elements after the opening bracket. -/
def parseJElems : Nat → Bool → List Json → List Char → Option (Json × List Char)
  | 0, _, _, _ => none
  | Nat.succ fuel, first, acc, cs =>
    match skipJsonWs cs with
    | [] => none
    | ']' :: rest =>
      if first then some (Json.arr acc.reverse, rest) else none
    | cs2 =>
      match parseJ fuel cs2 with
      | some (v, rest2) =>
        match skipJsonWs rest2 with
        | ',' :: rest3 => parseJElems fuel false (v :: acc) rest3
        | ']' :: rest3 => some (Json.arr (v :: acc).reverse, rest3)
        | _ => none
      | none => none

end

/-- Model of `json.loads` applied to a character list: one value,
surrounded only by whitespace. -/
def jsonLoads (cs : List Char) : Option Json :=
  match parseJ (2 * cs.length + 8) cs with
  | some (v, rest) => if (skipJsonWs rest).isEmpty then some v else none
  | none => none

/-- Model of `json.loads` on a string. -/
def json_loads_str (s : String) : Option Json := jsonLoads s.data

/-! ## Model of `extract_json` from `utils.py` -/

def fenceList : List Char := List.replicate 3 btickChar

def jsonTagList : List Char := ['j', 's', 'o', 'n']

/-- Bodies captured by `re.findall` with the fenced-code-block pattern:
an opening triple backtick, an optional literal `json` tag, a lazily
matched body with surrounding whitespace stripped, and a closing triple
backtick; scanning resumes after each closing fence. -/
def codeBlockBodiesAux : Nat → List Char → List (List Char)
  | 0, _ => []
  | Nat.succ fuel, cs =>
    match findSubIdx cs fenceList with
    | none => []
    | some q =>
      let afterOpen := cs.drop (q + 3)
      let afterTag := if listStartsWith jsonTagList afterOpen then afterOpen.drop 4 else afterOpen
      match findSubIdx afterTag fenceList with
      | some t =>
        pyStripList (afterTag.take t) :: codeBlockBodiesAux fuel (afterTag.drop (t + 3))
      | none => codeBlockBodiesAux fuel (cs.drop (q + 1))

def codeBlockBodies (cs : List Char) : List (List Char) :=
  codeBlockBodiesAux (cs.length + 1) cs

/-- Python slice `text[a:b]`. -/
def sliceList (cs : List Char) (a b : Nat) : List Char := (cs.drop a).take (b - a)

/-- The brace-matching loop of `extract_json`: a single left-to-right
pass from the first opening brace, collecting a candidate span whenever
the running count returns to zero and then re-anchoring at the next
opening brace (the counter is reset to zero there, and intervening
closing braces still decrement it, exactly as in the source). -/
def braceLoopAux (cs : List Char) : Nat → Nat → Nat → Int → List (List Char) →
    List (List Char)
  | 0, _, _, _, acc => acc.reverse
  | Nat.succ fuel, i, startIdx, count, acc =>
    match cs.get? i with
    | none => acc.reverse
    | some c =>
      if c = lbraceChar then braceLoopAux cs fuel (i + 1) startIdx (count + 1) acc
      else if c = rbraceChar then
        let cnt := count - 1
        if cnt = 0 then
          let cand := sliceList cs startIdx (i + 1)
          match findCharIdxFrom cs lbraceChar (i + 1) with
          | some ns => braceLoopAux cs fuel (i + 1) ns 0 (cand :: acc)
          | none => (cand :: acc).reverse
        else braceLoopAux cs fuel (i + 1) startIdx cnt acc
      else braceLoopAux cs fuel (i + 1) startIdx count acc

def braceCandidates (cs : List Char) : List (List Char) :=
  match findCharIdxFrom cs lbraceChar 0 with
  | none => []
  | some s0 => braceLoopAux cs (cs.length + 1) s0 s0 0 []

/-- Python `text.replace("\\/", "/")`: left-to-right, non-overlapping. -/
def replaceEscSlash : List Char → List Char
  | '\\' :: '/' :: rest => '/' :: replaceEscSlash rest
  | c :: rest => c :: replaceEscSlash rest
  | [] => []

def validEscFollower (c : Char) : Bool :=
  c = '"' || c = '\\' || c = 'b' || c = 'f' || c = 'n' || c = 'r' || c = 't' || c = '/'

/-- The substitution that deletes every backslash not followed by a valid
JSON escape character; a backslash that is kept shields nothing, the scan
resumes at the character after it. -/
def stripInvalidEsc : List Char → List Char
  | [] => []
  | ['\\'] => []
  | '\\' :: c :: rest =>
    if validEscFollower c then '\\' :: stripInvalidEsc (c :: rest)
    else stripInvalidEsc (c :: rest)
  | c :: rest => c :: stripInvalidEsc rest

/-- Smallest position `e` at or after the start index holding a closing
brace that is not immediately followed by an opening brace; this is where
the lazy group of the trailing-text pattern can end. -/
def findCloseBr (cs : List Char) : Nat → Nat → Option Nat
  | 0, _ => none
  | Nat.succ fuel, e =>
    match cs.get? e with
    | none => none
    | some c =>
      if c = rbraceChar then
        match cs.get? (e + 1) with
        | none => some e
        | some c2 => if c2 = lbraceChar then findCloseBr cs fuel (e + 1) else some e
      else findCloseBr cs fuel (e + 1)

def wsRunLen (cs : List Char) (i : Nat) : Nat :=
  ((cs.drop i).takeWhile pyWsChar).length

/-- Candidates of the final fallback pattern (a lazily matched brace span
followed by optional whitespace and either a non-brace character or the
end of the text), with `re.findall` resumption positions. -/
def extraPatternAux (cs : List Char) : Nat → Nat → List (List Char)
  | 0, _ => []
  | Nat.succ fuel, p =>
    match findCharIdxFrom cs lbraceChar p with
    | none => []
    | some q =>
      match findCloseBr cs (cs.length + 1) (q + 1) with
      | none => extraPatternAux cs fuel (q + 1)
      | some e =>
        let cand := sliceList cs q (e + 1)
        let w := wsRunLen cs (e + 1)
        let nextp :=
          if e + 1 + w = cs.length then cs.length
          else
            match cs.get? (e + 1 + w) with
            | some c2 => if c2 = lbraceChar then e + 1 + w else e + 2 + w
            | none => cs.length
        cand :: extraPatternAux cs fuel nextp

/-- Try each code-block body in order: skip empties, return the first
body that parses. -/
def tryBlockBodies : List (List Char) → Option Json
  | [] => none
  | b :: rest =>
    if b.isEmpty then tryBlockBodies rest
    else
      match jsonLoads b with
      | some v => some v
      | none => tryBlockBodies rest

/-- Try each brace-span candidate in order: strip, require nonempty
text that starts with an opening and ends with a closing brace, return
the first that parses. -/
def tryBraceCands : List (List Char) → Option Json
  | [] => none
  | cand :: rest =>
    let cleaned := pyStripList cand
    if !cleaned.isEmpty && listStartsWith [lbraceChar] cleaned &&
        listStartsWith [rbraceChar] cleaned.reverse then
      match jsonLoads cleaned with
      | some v => some v
      | none => tryBraceCands rest
    else tryBraceCands rest

def codeBlockStrat (t : String) : Option Json := tryBlockBodies (codeBlockBodies t.data)

def braceStrat (t : String) : Option Json := tryBraceCands (braceCandidates t.data)

def wholeTextStrat (t : String) : Option Json :=
  let cleaned := pyStripList t.data
  if cleaned.isEmpty then none else jsonLoads cleaned

def cleanupStrat (t : String) : Option Json :=
  let cleaned := pyStripList t.data
  if listStartsWith [lbraceChar] cleaned && listStartsWith [rbraceChar] cleaned.reverse then
    jsonLoads (stripInvalidEsc (replaceEscSlash cleaned))
  else none

def extraPatternStrat (t : String) : Option Json :=
  tryBraceCands (extraPatternAux t.data (t.data.length + 1) 0)

/-- `extract_json` of `utils.py` on string input, written with the same
sequential attempt structure as the source: guard against blank input,
then code blocks, then the brace-matching scan, then the whole text, then
the escape-cleanup parse, then the trailing-text pattern. -/
def extract_json (t : String) : Option Json :=
  if pyStrip t = "" then none
  else
    match codeBlockStrat t with
    | some v => some v
    | none =>
      match braceStrat t with
      | some v => some v
      | none =>
        match wholeTextStrat t with
        | some v => some v
        | none =>
          match cleanupStrat t with
          | some v => some v
          | none => extraPatternStrat t

/-- `extract_json` including its input guard: `none` models a `None` (or
any non-string) argument, which fails the `isinstance` test exactly as a
blank string fails the emptiness test. -/
def extract_json_py : Option String → Option Json
  | none => none
  | some s => extract_json s

/-! ## Answer grading -/

/-- A quiz question as read from the stored quiz document; `qtype` is the
value of the `type` field (default `mcq`), and answers plus explanation
default to the empty string, as the `.get` calls in the source do. -/
structure Question where
  qtype : String := "mcq"
  correct_answer : String := ""
  explanation : String := ""
deriving DecidableEq

/-- The stop-word set of `submit_topic_quiz`. -/
def stopWords : List String :=
  ["the", "and", "are", "for", "with", "this", "that", "from", "they", "have",
   "will", "can", "not", "but", "you", "all", "any", "had", "her", "was",
   "one", "our", "out", "day", "get", "use", "man", "new", "now", "old",
   "see", "him", "two", "how", "its", "who", "oil", "sit", "set", "run",
   "cut", "end", "why", "try", "put", "say", "she", "may", "way", "too",
   "own", "yet", "off", "far", "ask", "let", "big", "got", "top", "few"]

/-- Tokens of the short-answer regex: maximal word-character runs of
length at least 3, over the lowercased string. -/
def keywordTokens (s : String) : List String :=
  ((wordRuns (asciiLower s).data).filter (fun r => decide (3 ≤ r.length))).map String.mk

/-- The Python `set(...) - stop_words` of `submit_topic_quiz`, as a
duplicate-free list. -/
def keywordSet (s : String) : List String :=
  ((keywordTokens s).dedup).filter (fun w => !stopWords.contains w)

/-- Python `s[0] if s else ""` on a string viewed as a character list. -/
def firstCharStr : List Char → List Char
  | [] => []
  | c :: _ => [c]

/-- One-question grading as performed inline by `submit_topic_quiz` in
`api/learning_path_api.py`. -/
def gradeTopicAnswer (q : Question) (user_answer : String) : Bool :=
  let normalized := pyStrip user_answer
  if normalized = "" then false
  else if q.qtype = "mcq" || q.qtype = "true_false" then
    let normalizedCorrect := (asciiUpper (pyStrip q.correct_answer)).data
    let normalizedUser := (asciiUpper (pyStrip normalized)).data
    firstCharStr normalizedUser = firstCharStr normalizedCorrect
  else if q.qtype = "short_answer" then
    let correctWords := keywordSet q.correct_answer
    let userWords := keywordSet normalized
    if !correctWords.isEmpty then
      let matchCount := (userWords.filter (fun w => correctWords.contains w)).length
      decide ((matchCount : ℚ) ≥ max 1 ((correctWords.length : ℚ) * (1 / 2)))
    else
      isSubList (asciiLower normalized).data (asciiLower q.correct_answer).data ||
        isSubList (asciiLower q.correct_answer).data (asciiLower normalized).data
  else false

/-- One-question grading as performed inline by `submit_ai_quiz` in
`ai_quiz_generator.py`: whole-string comparison for mcq and true/false,
and whitespace-split keyword sets with a plain 50 percent ratio for short
answers. -/
def gradeAiAnswer (q : Question) (user_answer : String) : Bool :=
  if pyStrip user_answer = "" then false
  else if q.qtype = "mcq" then
    asciiUpper (pyStrip user_answer) = asciiUpper (pyStrip q.correct_answer)
  else if q.qtype = "true_false" then
    asciiLower (pyStrip user_answer) = asciiLower (pyStrip q.correct_answer)
  else if q.qtype = "short_answer" then
    let userWords := (pySplit (asciiLower user_answer)).dedup
    let correctWords := (pySplit (asciiLower q.correct_answer)).dedup
    let matchRatio : ℚ :=
      if !correctWords.isEmpty then
        ((userWords.filter (fun w => correctWords.contains w)).length : ℚ) /
          (correctWords.length : ℚ)
      else 0
    decide (matchRatio ≥ 1 / 2)
  else false

/-! ## Score aggregation and the two submission pipelines -/

/-- Python `round` to the nearest integer: half-to-even. -/
def roundHalfEven (q : ℚ) : ℤ :=
  let f := q.floor
  let r := q - (f : ℚ)
  if r < 1 / 2 then f
  else if 1 / 2 < r then f + 1
  else if f % 2 = 0 then f else f + 1

/-- Python `round(x, 1)` on the rational idealisation of a float. -/
def pyRound1 (q : ℚ) : ℚ := ((roundHalfEven (q * 10) : ℤ) : ℚ) / 10

deriving instance DecidableEq for Except

structure GradingResult where
  question_number : Nat
  user_answer : String
  correct_answer : String
  is_correct : Bool
  explanation : String
deriving DecidableEq

structure TopicQuizResult where
  score_percentage : ℚ
  correct_answers : Nat
  total_questions : Nat
  passed : Bool
  details : List GradingResult
deriving DecidableEq

structure AiQuizResult where
  score_percentage : ℚ
  correct_answers : Nat
  total_questions : Nat
  answerReview : List GradingResult
deriving DecidableEq

def topicLengthErrorMsg : String :=
  "Number of answers doesn't match number of questions"

/-- The detailed-results loop of `submit_topic_quiz`:
`for i, (question, user_answer) in enumerate(zip(questions, answers))`,
with `i` threaded explicitly. -/
def topicDetails : List Question → List String → Nat → List GradingResult
  | q :: qrest, a :: arest, i =>
    { question_number := i + 1
      user_answer := a
      correct_answer := q.correct_answer
      is_correct := gradeTopicAnswer q a
      explanation := q.explanation } :: topicDetails qrest arest (i + 1)
  | _, _, _ => []

/-- The grading core of `submit_topic_quiz` (`api/learning_path_api.py`):
exact length match is required, grading zips questions with answers, the
percentage is the exact quotient (no rounding) and the pass flag is an
80 percent threshold.  Database retrieval and storage are elided. -/
def submit_topic_quiz (questions : List Question) (answers : List String) :
    Except String TopicQuizResult :=
  let total_questions := questions.length
  if answers.length ≠ total_questions then Except.error topicLengthErrorMsg
  else
    let details := topicDetails questions answers 0
    let correct_count := (details.filter (fun r => r.is_correct)).length
    let score_percentage : ℚ :=
      if total_questions > 0 then ((correct_count : ℚ) / (total_questions : ℚ)) * 100 else 0
    Except.ok
      { score_percentage
        correct_answers := correct_count
        total_questions
        passed := decide (score_percentage ≥ 80)
        details }

def aiAnswersRequiredMsg : String := "At least one answer is required"

/-- The detailed-results loop of `submit_ai_quiz`:
`for i, question in enumerate(questions)` with
`user_answer = answers[i] if i < len(answers) else ""`. -/
def aiReview (answers : List String) : List Question → Nat → List GradingResult
  | q :: qrest, i =>
    let user_answer := answers.getD i ""
    { question_number := i + 1
      user_answer
      correct_answer := q.correct_answer
      is_correct := gradeAiAnswer q user_answer
      explanation := q.explanation } :: aiReview answers qrest (i + 1)
  | [], _ => []

/-- The grading core of `submit_ai_quiz` (`ai_quiz_generator.py`): an
empty answer list is rejected up front, missing trailing answers become
empty strings, and the percentage is rounded to one decimal.  Database
retrieval and storage are elided; the per-question review keeps the
fields the claims speak about. -/
def submit_ai_quiz (questions : List Question) (answers : List String) :
    Except String AiQuizResult :=
  if answers.isEmpty then Except.error aiAnswersRequiredMsg
  else
    let answerReview := aiReview answers questions 0
    let correct_answers := (answerReview.filter (fun r => r.is_correct)).length
    let total_questions := questions.length
    let score_percentage : ℚ :=
      if total_questions > 0 then
        pyRound1 (((correct_answers : ℚ) / (total_questions : ℚ)) * 100)
      else 0
    Except.ok { score_percentage, correct_answers, total_questions, answerReview }

/-- The `quiz_passed` flag computed by `mark_topic_complete`
(`api/learning_path_api.py`) from the submitted quiz score. -/
def mark_topic_complete_quiz_passed (quizScore : ℚ) : Bool := decide (quizScore ≥ 80)

/-! ## Schema validation -/

/-- The `topics` check of `process_learning_path_query`: the field is
present and its value is a list. -/
def topicsFieldIsList (v : Json) : Bool :=
  match v with
  | .obj fs =>
    match lookupKey fs "topics" with
    | some (.arr _) => true
    | _ => false
  | _ => false

/-- Learning-path shape validation of `learning_path.py`: a dict whose
`topics` member is a list (each failed test raises `ValueError`). -/
def lp_schema_ok (v : Json) : Bool := v.isObjB && topicsFieldIsList v

/-- Quiz shape validation of `generate_ai_quiz`: the checks
`quiz_json.get("quiz_data")` truthy and
`quiz_json["quiz_data"].get("questions")` truthy.  A non-dict value at
either level raises `AttributeError` inside the handler, which the
endpoint turns into the same failure outcome, so it is folded into
`false` here. -/
def quiz_schema_ok (v : Json) : Bool :=
  match v with
  | .obj fs =>
    match lookupKey fs "quiz_data" with
    | some qd =>
      qd.truthy &&
        (match qd with
         | .obj f2 => ((lookupKey f2 "questions").getD Json.null).truthy
         | _ => false)
    | none => false
  | _ => false

/-! ## The learning-path retry loop -/

/-- A value returned by `process_learning_path_query`: either the error
record (`response` field `"ERROR"`, `content` the user-facing message) or
the success record carrying the validated document. -/
inductive LPResp where
  | errorResp (message : String) : LPResp
  | jsonResp (content : Json) : LPResp

def emptyGenMessage : String :=
  "I'm sorry, I couldn't generate a response. Please check your API configuration and try again."

def invalidPathMessage : String :=
  "I'm sorry, I couldn't generate a valid learning path. Please try again with more specific details."

/-- The empty-response guard of `process_learning_path_query`: `None`, a
non-string value, or a blank string count as an empty generation. -/
def normalizeGen : Option String → Option String
  | none => none
  | some s => if pyStrip s = "" then none else some s

/-- One parse-and-validate attempt of `process_learning_path_query` on a
non-blank response: `extract_json` on the stripped text, direct
`json.loads` when that result is falsy, the dict-plus-`topics` check, and
on any `ValueError` one more `extract_json` pass over the raw text with
the same validation.  Lesson-document construction and chat-history
storage are elided. -/
def tryParseAttempt (s : String) : Option Json :=
  let cleaned := pyStrip s
  let lp : Option Json :=
    match extract_json cleaned with
    | some v => if v.truthy then some v else json_loads_str cleaned
    | none => json_loads_str cleaned
  let exceptBranch : Option Json :=
    match extract_json s with
    | some v => if v.truthy && v.isObjB && topicsFieldIsList v then some v else none
    | none => none
  match lp with
  | some v => if v.isObjB && topicsFieldIsList v then some v else exceptBranch
  | none => exceptBranch

/-- Does a single generation attempt fail (empty generation, unparsable
text, or invalid schema)? -/
def attemptFails (r : Option String) : Bool :=
  match r with
  | none => true
  | some s => pyStrip s = "" || (tryParseAttempt s).isNone

/-- The recursion of `process_learning_path_query`, with the external
generator modelled as the sequence of its responses (`gen i` is the
response to the call made at `retry_count = i`).  The second argument is
the remaining retry budget `max_retries - 1 - retry_count`, which is
what the guard `retry_count < max_retries - 1` measures. -/
def processCore (gen : Nat → Option String) : Nat → Nat → LPResp
  | rc, 0 =>
    match normalizeGen (gen rc) with
    | none => LPResp.errorResp emptyGenMessage
    | some s =>
      match tryParseAttempt s with
      | some doc => LPResp.jsonResp doc
      | none => LPResp.errorResp invalidPathMessage
  | rc, Nat.succ budget =>
    match normalizeGen (gen rc) with
    | none => processCore gen (rc + 1) budget
    | some s =>
      match tryParseAttempt s with
      | some doc => LPResp.jsonResp doc
      | none => processCore gen (rc + 1) budget

/-- `process_learning_path_query` of `learning_path.py` (the prompt
strings only steer the external generator, which is abstracted as `gen`,
so they do not appear). -/
def process_learning_path_query (gen : Nat → Option String)
    (retry_count max_retries : Nat) : LPResp :=
  processCore gen retry_count (max_retries - 1 - retry_count)

/-! ## Spec-side definitions (used only to compare against the code) -/

/-- Modelled from the spec wording of schema validation: the value is a
JSON object containing the required top-level field whose value is a
list. -/
def schemaClaimOk (field : String) (v : Json) : Bool :=
  match v with
  | .obj fs =>
    match lookupKey fs field with
    | some x => x.isArrB
    | none => false
  | _ => false

/-- First character of the trimmed, uppercased string, if any. -/
def specFirstLetter (s : String) : Option Char := (asciiUpper (pyStrip s)).data.head?

/-- Modelled from the spec wording of mcq / true-false grading: compare
the first characters of the two normalized strings. -/
def mcqClaimOk (correct user : String) : Bool :=
  decide (specFirstLetter user = specFirstLetter correct)

/-- Modelled from the spec wording of short-answer keyword sets: the set
of lowercase word tokens of length at least 3, minus the stop words. -/
def specKeywords (s : String) : Finset String :=
  (((wordRuns (asciiLower s).data).map String.mk).toFinset).filter
    (fun w => 3 ≤ w.length ∧ w ∉ stopWords)

/-- Modelled from the spec wording of short-answer grading: with a
non-empty keyword set, at least `max(1, half the reference keywords)`
must match; with an empty one, lowercased substring containment in
either direction decides. -/
def shortAnswerClaimOk (correct user : String) : Bool :=
  let cw := specKeywords correct
  let uw := specKeywords user
  if cw.card ≠ 0 then
    decide (((cw ∩ uw).card : ℚ) ≥ max 1 ((1 / 2) * (cw.card : ℚ)))
  else
    isSubList (asciiLower user).data (asciiLower correct).data ||
      isSubList (asciiLower correct).data (asciiLower user).data

/-! ## Theorems about the claims -/

/-- C6: for every question of every type, grading an empty or
whitespace-only user answer yields `is_correct = false` in both graders,
before any type-specific matching rule can apply. -/
theorem claim_C6 : ∀ (q : Question) (ua : String), pyStrip ua = "" →
    gradeTopicAnswer q ua = false ∧ gradeAiAnswer q ua = false := by
  intro q ua h
  constructor
  · unfold gradeTopicAnswer
    simp [h]
  · unfold gradeAiAnswer
    simp [h]

/-- C6 witness: a whitespace-only answer to a concrete mcq question is
graded incorrect by both graders. -/
theorem claim_C6_witness :
    pyStrip ("   ") = "" ∧
      (gradeTopicAnswer { qtype := "mcq", correct_answer := "A" } ("   ") = false ∧
        gradeAiAnswer { qtype := "mcq", correct_answer := "A" } ("   ") = false) :=
  ⟨by decide, claim_C6 _ _ (by decide)⟩

/-- C9: `extract_json` is a total function from an optional string (with
`none` standing for `None` or a non-string argument) to an optional JSON
value: degenerate input is answered with `none` immediately and every
input yields either `none` or a parsed value, never an exception. -/
theorem claim_C9 : ∀ inp : Option String,
    extract_json_py none = none ∧
      (∀ s, inp = some s → pyStrip s = "" → extract_json_py inp = none) ∧
      (extract_json_py inp = none ∨ ∃ v, extract_json_py inp = some v) := by
  intro inp
  refine ⟨rfl, ?_, ?_⟩
  · rintro s rfl h
    simp [extract_json_py, extract_json, h]
  · cases h : extract_json_py inp with
    | none => exact Or.inl rfl
    | some v => exact Or.inr ⟨v, rfl⟩

/-- C9 witness: a whitespace-only input returns `none`. -/
theorem claim_C9_witness : extract_json_py (some ("   ")) = none :=
  (claim_C9 (some ("   "))).2.1 ("   ") rfl (by decide)

/-- C10: the `passed` flag of a topic-quiz submission is true exactly
when the computed percentage is at least 80, and `mark_topic_complete`
uses the same fixed 80 threshold for its `quiz_passed` flag. -/
theorem claim_C10 :
    (∀ qs ans r, submit_topic_quiz qs ans = Except.ok r →
        (r.passed = true ↔ r.score_percentage ≥ 80)) ∧
      (∀ sc : ℚ, mark_topic_complete_quiz_passed sc = true ↔ sc ≥ 80) := by
  constructor
  · intro qs ans r h
    simp only [submit_topic_quiz] at h
    split at h
    · exact absurd h (by simp)
    · injection h with h2
      subst h2
      simp
  · intro sc
    simp [mark_topic_complete_quiz_passed]

/-- C10 witness: a fully correct one-question submission produces this
concrete result record, whose pass flag matches the 80 threshold, and the
threshold function agrees at a concrete score. -/
theorem claim_C10_witness :
    submit_topic_quiz [{ qtype := "mcq", correct_answer := "A" }] ["A"] =
        Except.ok
          { score_percentage := 100
            correct_answers := 1
            total_questions := 1
            passed := true
            details := [{ question_number := 1, user_answer := "A",
                          correct_answer := "A", is_correct := true,
                          explanation := "" }] } ∧
      (TopicQuizResult.passed
          { score_percentage := 100
            correct_answers := 1
            total_questions := 1
            passed := true
            details := [{ question_number := 1, user_answer := "A",
                          correct_answer := "A", is_correct := true,
                          explanation := "" }] } = true ↔
        (100 : ℚ) ≥ 80) ∧
      (mark_topic_complete_quiz_passed 80 = true ↔ (80 : ℚ) ≥ 80) :=
  ⟨by decide, claim_C10.1 [{ qtype := "mcq", correct_answer := "A" }] ["A"] _ (by decide),
    claim_C10.2 80⟩

/-- C5 counterexample: for a three-question topic quiz with one correct
answer, `submit_topic_quiz` returns the exact percentage 100/3, which is
not `round(100 * 1 / 3, 1)`, so the rounding formula of the claim fails
at that endpoint. -/
theorem claim_C5_counterexample :
    (submit_topic_quiz
        [{ qtype := "mcq", correct_answer := "A" },
         { qtype := "mcq", correct_answer := "A" },
         { qtype := "mcq", correct_answer := "A" }]
        ["A", "B", "C"]).map
        (fun r => (r.score_percentage, r.correct_answers, r.total_questions)) =
      Except.ok ((100 : ℚ) / 3, 1, 3) ∧
      (100 : ℚ) / 3 ≠ pyRound1 (100 * (1 : ℚ) / 3) := by
  constructor
  · decide
  · decide

/-- C5 amended: the AI-quiz aggregation rounds the percentage to one
decimal; the topic-quiz aggregation returns the exact unrounded quotient;
both yield 0 with no division when there are no questions. -/
theorem claim_C5 :
    (∀ qs ans r, submit_ai_quiz qs ans = Except.ok r →
        r.score_percentage =
          if r.total_questions > 0 then
            pyRound1 (100 * (r.correct_answers : ℚ) / (r.total_questions : ℚ))
          else 0) ∧
      (∀ qs ans r, submit_topic_quiz qs ans = Except.ok r →
          r.score_percentage =
            if r.total_questions > 0 then
              100 * (r.correct_answers : ℚ) / (r.total_questions : ℚ)
            else 0) := by
  constructor
  · intro qs ans r h
    simp only [submit_ai_quiz] at h
    split at h
    · exact absurd h (by simp)
    · injection h with h2
      subst h2
      simp only
      by_cases hq : qs.length > 0
      · simp only [hq, if_true]
        congr 1
        ring
      · simp [hq]
  · intro qs ans r h
    simp only [submit_topic_quiz] at h
    split at h
    · exact absurd h (by simp)
    · injection h with h2
      subst h2
      simp only
      by_cases hq : qs.length > 0
      · simp only [hq, if_true]
        ring
      · simp [hq]

/-- C5 witness: both aggregation formulas at concrete submissions. -/
theorem claim_C5_witness :
    submit_ai_quiz [{ qtype := "mcq", correct_answer := "A" }] ["A"] =
        Except.ok
          { score_percentage := 100
            correct_answers := 1
            total_questions := 1
            answerReview := [{ question_number := 1, user_answer := "A",
                               correct_answer := "A", is_correct := true,
                               explanation := "" }] } ∧
      AiQuizResult.score_percentage
          { score_percentage := 100
            correct_answers := 1
            total_questions := 1
            answerReview := [{ question_number := 1, user_answer := "A",
                               correct_answer := "A", is_correct := true,
                               explanation := "" }] } =
        if (1 : Nat) > 0 then pyRound1 (100 * (1 : ℚ) / (1 : ℚ)) else 0 :=
  ⟨by decide, claim_C5.1 [{ qtype := "mcq", correct_answer := "A" }] ["A"] _ (by decide)⟩

/-- Padding an answer list with empty strings never changes a positional
lookup whose default is the empty string. -/
theorem getD_append_empty_pad (ans : List String) (k j : Nat) :
    (ans ++ List.replicate k "").getD j "" = ans.getD j "" := by
  rcases lt_or_ge j ans.length with hj | hj
  · rw [List.getD_append _ _ _ _ hj]
  · rw [List.getD_eq_getD_get?, List.getD_eq_getD_get?]
    rw [List.get?_append_right hj]
    rw [List.get?_eq_none.mpr hj]
    rcases lt_or_ge (j - ans.length) k with hk | hk
    · rw [List.get?_eq_get (by simpa using hk)]
      simp [List.get_replicate]
    · rw [List.get?_eq_none.mpr (by simpa using hk)]

/-- The AI review loop is insensitive to empty-string padding of the
answer list. -/
theorem aiReview_pad (k : Nat) (ans : List String) :
    ∀ (qs : List Question) (i : Nat),
      aiReview (ans ++ List.replicate k "") qs i = aiReview ans qs i := by
  intro qs
  induction qs with
  | nil => intro i; rfl
  | cons q qrest ih =>
    intro i
    simp only [aiReview, getD_append_empty_pad, ih]

/-- The AI review loop produces one grading record per question. -/
theorem aiReview_length (ans : List String) :
    ∀ (qs : List Question) (i : Nat), (aiReview ans qs i).length = qs.length := by
  intro qs
  induction qs with
  | nil => intro i; rfl
  | cons q qrest ih => intro i; simp [aiReview, ih]

/-- C7 counterexample: submitting one answer for a two-question topic
quiz is rejected with a length-mismatch error, so a short answers list is
not padded there. -/
theorem claim_C7_counterexample :
    submit_topic_quiz
        [{ qtype := "mcq", correct_answer := "A" },
         { qtype := "mcq", correct_answer := "B" }]
        ["A"] =
      Except.error topicLengthErrorMsg := by
  decide

/-- C7 amended: `submit_ai_quiz` grades a non-empty short answers list
exactly as if it were padded with empty strings to the question count and
produces one grading record per question (an entirely empty answers list
is rejected); `submit_topic_quiz` instead rejects every length mismatch
with an error. -/
theorem claim_C7 :
    (∀ (qs : List Question) (ans : List String) (k : Nat), ¬ans.isEmpty = true →
        submit_ai_quiz qs (ans ++ List.replicate k "") = submit_ai_quiz qs ans) ∧
      (∀ qs ans r, submit_ai_quiz qs ans = Except.ok r →
          r.answerReview.length = qs.length) ∧
      (∀ (qs : List Question) (ans : List String), ans.length ≠ qs.length →
          submit_topic_quiz qs ans = Except.error topicLengthErrorMsg) := by
  refine ⟨?_, ?_, ?_⟩
  · intro qs ans k hne
    have h1 : ans.isEmpty = false := by
      cases h : ans.isEmpty
      · rfl
      · exact absurd h hne
    have h2 : (ans ++ List.replicate k "").isEmpty = false := by
      cases ans
      · simp [List.isEmpty] at h1
      · rfl
    simp [submit_ai_quiz, aiReview_pad, h1, h2]
  · intro qs ans r h
    simp only [submit_ai_quiz] at h
    split at h
    · exact absurd h (by simp)
    · injection h with h2
      subst h2
      simp [aiReview_length]
  · intro qs ans hne
    simp [submit_topic_quiz, hne]

/-- C7 witness: the three parts at concrete inputs (a one-answer list
for a two-question AI quiz, and the same mismatch at the topic quiz). -/
theorem claim_C7_witness :
    (submit_ai_quiz
        [{ qtype := "mcq", correct_answer := "A" },
         { qtype := "mcq", correct_answer := "B" }]
        (["A"] ++ List.replicate 1 "") =
      submit_ai_quiz
        [{ qtype := "mcq", correct_answer := "A" },
         { qtype := "mcq", correct_answer := "B" }]
        ["A"]) ∧
      submit_topic_quiz [{ qtype := "mcq", correct_answer := "A" },
          { qtype := "mcq", correct_answer := "B" }] ["B"] =
        Except.error topicLengthErrorMsg :=
  ⟨claim_C7.1 _ ["A"] 1 (by decide),
    claim_C7.2.2 [{ qtype := "mcq", correct_answer := "A" },
      { qtype := "mcq", correct_answer := "B" }] ["B"] (by decide)⟩

/-- C8 counterexample: a JSON object whose top-level `questions` field is
a list satisfies the claimed validation rule but fails the quiz check of
the code, which instead demands a truthy nested `quiz_data.questions`. -/
theorem claim_C8_counterexample :
    quiz_schema_ok (Json.obj [("questions", Json.arr [Json.str ("q1")])]) = false ∧
      schemaClaimOk ("questions") (Json.obj [("questions", Json.arr [Json.str ("q1")])]) =
        true :=
  ⟨rfl, rfl⟩

/-- C8 amended: the learning-path validation is exactly the claimed rule
(object with a `topics` list); the quiz validation instead requires a
truthy `quiz_data` field whose own `questions` field is truthy, with no
list check. -/
theorem claim_C8 : ∀ v : Json,
    lp_schema_ok v = schemaClaimOk ("topics") v ∧
      quiz_schema_ok v =
        ((v.getKeyD ("quiz_data")).truthy &&
          ((v.getKeyD ("quiz_data")).getKeyD ("questions")).truthy) := by
  intro v
  constructor
  · cases v with
    | obj fs =>
      simp only [lp_schema_ok, schemaClaimOk, topicsFieldIsList, Json.isObjB, Bool.true_and]
      cases h : lookupKey fs "topics" with
      | none => rfl
      | some x => cases x <;> simp [Json.isArrB]
    | null => rfl
    | bool b => rfl
    | num q => rfl
    | nan => rfl
    | inf b => rfl
    | str s => rfl
    | arr l => rfl
  · cases v with
    | obj fs =>
      simp only [quiz_schema_ok, Json.getKeyD]
      cases h : lookupKey fs "quiz_data" with
      | none => rfl
      | some qd => cases qd <;> simp [Json.truthy, Json.getKeyD]
    | null => rfl
    | bool b => rfl
    | num q => rfl
    | nan => rfl
    | inf b => rfl
    | str s => rfl
    | arr l => rfl

/-- Equality of Python-style first-character strings is equality of the
optional first characters. -/
theorem firstCharStr_eq_iff (a b : List Char) :
    firstCharStr a = firstCharStr b ↔ a.head? = b.head? := by
  cases a <;> cases b <;> simp [firstCharStr]

/-- C2 counterexample: the AI-quiz grader compares whole normalized
strings, so the answer `A) Paris` against correct answer `A` is marked
incorrect even though the first letters agree as the claim requires. -/
theorem claim_C2_counterexample :
    gradeAiAnswer { qtype := "mcq", correct_answer := "A" } ("A) Paris") = false ∧
      mcqClaimOk ("A") ("A) Paris") = true :=
  ⟨by decide, by decide⟩

/-- C2 amended: the first-letter rule holds for the topic-quiz grader
(for both mcq and true_false); the AI-quiz grader instead compares the
full normalized strings. -/
theorem claim_C2 : ∀ (q : Question) (ua : String),
    q.qtype = "mcq" ∨ q.qtype = "true_false" → pyStrip ua ≠ "" →
      gradeTopicAnswer q ua = mcqClaimOk q.correct_answer (pyStrip ua) := by
  intro q ua hty hne
  rcases hty with h | h <;>
    simp [gradeTopicAnswer, mcqClaimOk, specFirstLetter, h, hne, firstCharStr_eq_iff]

/-- C2 witness: the first-letter rule at the concrete answer `a)` for
correct answer `A`. -/
theorem claim_C2_witness :
    pyStrip ("a)") ≠ "" ∧
      gradeTopicAnswer { qtype := "mcq", correct_answer := "A" } ("a)") =
        mcqClaimOk ("A") (pyStrip ("a)")) :=
  ⟨by decide, claim_C2 { qtype := "mcq", correct_answer := "A" } ("a)")
    (Or.inl rfl) (by decide)⟩

/-- The keyword list of the code computes the keyword set of the spec. -/
theorem keywordSet_toFinset (s : String) :
    (keywordSet s).toFinset = specKeywords s := by
  ext w
  simp only [keywordSet, specKeywords, keywordTokens, List.mem_toFinset,
    List.mem_filter, List.mem_dedup, List.mem_map, Finset.mem_filter,
    decide_eq_true_eq, Bool.not_eq_true', List.contains, List.elem_eq_mem,
    decide_eq_false_iff_not]
  constructor
  . rintro ⟨⟨r, ⟨hr, hlen⟩, rfl⟩, hstop⟩
    exact ⟨⟨r, hr, rfl⟩, by simpa using hlen, hstop⟩
  . rintro ⟨⟨r, hr, rfl⟩, hlen, hstop⟩
    exact ⟨⟨r, ⟨hr, by simpa using hlen⟩, rfl⟩, hstop⟩

/-- The keyword list of the code is duplicate-free. -/
theorem keywordSet_nodup (s : String) : (keywordSet s).Nodup :=
  ((keywordTokens s).nodup_dedup).filter _

/-- Code-side keyword count agrees with the spec-side cardinality. -/
theorem keywordSet_length (s : String) :
    (keywordSet s).length = (specKeywords s).card := by
  rw [← keywordSet_toFinset, List.toFinset_card_of_nodup (keywordSet_nodup s)]

/-- Code-side match count agrees with the spec-side intersection
cardinality. -/
theorem matchCount_eq (c u : String) :
    ((keywordSet u).filter (fun w => (keywordSet c).contains w)).length =
      (specKeywords c ∩ specKeywords u).card := by
  have hnd : ((keywordSet u).filter (fun w => (keywordSet c).contains w)).Nodup :=
    (keywordSet_nodup u).filter _
  rw [← List.toFinset_card_of_nodup hnd]
  congr 1
  ext w
  simp only [List.mem_toFinset, List.mem_filter, Finset.mem_inter,
    ← keywordSet_toFinset, List.contains, List.elem_eq_mem, decide_eq_true_eq]
  tauto

/-- C1 counterexample: the AI-quiz grader splits on whitespace with no
stop-word or length filtering, so the answer `the cat` against reference
`the dog` is marked correct (they share the token `the`), although the
claimed rule marks it incorrect (keyword sets `dog` and `cat` do not
meet, and the keyword set is non-empty so no substring fallback). -/
theorem claim_C1_counterexample :
    gradeAiAnswer { qtype := "short_answer", correct_answer := "the dog" }
        ("the cat") = true ∧
      shortAnswerClaimOk ("the dog") ("the cat") = false :=
  ⟨by decide, by decide⟩

/-- C1 amended: the claimed keyword-overlap rule (length-3 word tokens
minus stop words, threshold `max(1, half the reference keywords)`, with a
substring fallback on an empty keyword set) holds for the topic-quiz
grader, applied to the trimmed user answer; the AI-quiz grader instead
splits on whitespace and uses a plain 50 percent ratio with no fallback. -/
theorem claim_C1 : ∀ (q : Question) (ua : String),
    q.qtype = "short_answer" → pyStrip ua ≠ "" →
      gradeTopicAnswer q ua = shortAnswerClaimOk q.correct_answer (pyStrip ua) := by
  intro q ua hq hne
  simp only [gradeTopicAnswer, shortAnswerClaimOk, hq, hne, if_false]
  by_cases hc : (keywordSet q.correct_answer).isEmpty
  · have hlen : (keywordSet q.correct_answer).length = 0 := by
      simpa [List.isEmpty_iff_length_eq_zero] using hc
    have hcard : (specKeywords q.correct_answer).card = 0 := by
      rw [← keywordSet_length]; exact hlen
    simp [hc, hcard]
  · have hlen : (keywordSet q.correct_answer).length ≠ 0 := by
      simpa [List.isEmpty_iff_length_eq_zero] using hc
    have hcard : (specKeywords q.correct_answer).card ≠ 0 := by
      rw [← keywordSet_length]; exact hlen
    have hmcq : (decide (("short_answer" : String) = "mcq") ||
        decide (("short_answer" : String) = "true_false")) = false := by decide
    simp only [hc, hcard, hmcq, Bool.not_false, if_true, ne_eq, not_false_iff,
      Bool.false_eq_true, if_false]
    rw [decide_eq_decide]
    rw [matchCount_eq, keywordSet_length,
      mul_comm (((specKeywords q.correct_answer).card : ℚ)) (1 / 2)]

/-- C1 witness: a concrete short answer graded by the topic grader
agrees with the claimed rule. -/
theorem claim_C1_witness :
    pyStrip ("the iteration loops") ≠ "" ∧
      gradeTopicAnswer { qtype := "short_answer", correct_answer := "iteration loops" }
          ("the iteration loops") =
        shortAnswerClaimOk ("iteration loops") (pyStrip ("the iteration loops")) :=
  ⟨by decide, claim_C1 _ _ rfl (by decide)⟩

/-- C4 counterexample: on the input `[...]` holding one object, parsing
the whole text succeeds and yields the array, yet `extract_json` returns
the inner object found by the brace scan — so the whole-text parse is not
attempted first as the claim orders the strategies. -/
theorem claim_C4_counterexample :
    extract_json ("[\x7b\"a\": 1\x7d]") = some (Json.obj [("a", Json.num 1)]) ∧
      json_loads_str (pyStrip ("[\x7b\"a\": 1\x7d]")) =
        some (Json.arr [Json.obj [("a", Json.num 1)]]) ∧
      Json.obj [("a", Json.num 1)] ≠ Json.arr [Json.obj [("a", Json.num 1)]] := by
  refine ⟨rfl, rfl, ?_⟩
  intro h
  exact Json.noConfusion h

/-- C4 amended: on non-blank input `extract_json` attempts, first success
winning, (1) fenced code-block bodies in order, (2) brace-scan candidate
spans in order, (3) the whole trimmed text, (4) the escape-cleanup parse
when the trimmed text is brace-delimited, (5) the trailing-text fallback
pattern; blank input returns `none`. -/
theorem claim_C4 : ∀ t : String,
    (pyStrip t = "" → extract_json t = none) ∧
      (pyStrip t ≠ "" →
        extract_json t =
          (((((codeBlockStrat t).orElse fun _ => braceStrat t).orElse
                fun _ => wholeTextStrat t).orElse
              fun _ => cleanupStrat t).orElse fun _ => extraPatternStrat t)) := by
  intro t
  constructor
  · intro h
    simp [extract_json, h]
  · intro h
    simp only [extract_json, h, if_false]
    cases codeBlockStrat t <;> cases braceStrat t <;> cases wholeTextStrat t <;>
      cases cleanupStrat t <;> simp [Option.orElse]

/-- C4 witness: the guard and the strategy chain at concrete inputs. -/
theorem claim_C4_witness :
    extract_json ("  ") = none ∧
      extract_json ("xyz") =
        (((((codeBlockStrat ("xyz")).orElse fun _ => braceStrat ("xyz")).orElse
              fun _ => wholeTextStrat ("xyz")).orElse
            fun _ => cleanupStrat ("xyz")).orElse fun _ => extraPatternStrat ("xyz")) :=
  ⟨(claim_C4 ("  ")).1 (by decide), (claim_C4 ("xyz")).2 (by decide)⟩

/-- A failing attempt is an empty generation or a failed parse. -/
theorem attemptFails_cases (r : Option String) (h : attemptFails r = true) :
    normalizeGen r = none ∨
      ∃ s, normalizeGen r = some s ∧ tryParseAttempt s = none := by
  cases r with
  | none => exact Or.inl rfl
  | some s =>
    simp only [attemptFails, Bool.or_eq_true, decide_eq_true_eq,
      Option.isNone_iff_eq_none] at h
    rcases h with h | h
    · exact Or.inl (by simp [normalizeGen, h])
    · by_cases hs : pyStrip s = ""
      · exact Or.inl (by simp [normalizeGen, hs])
      · exact Or.inr ⟨s, by simp [normalizeGen, hs], h⟩

/-- The retry loop consults the generator only on the attempts inside
the remaining budget. -/
theorem processCore_congr : ∀ (b rc : Nat) (gen gen' : Nat → Option String),
    (∀ i, rc ≤ i → i ≤ rc + b → gen' i = gen i) →
    processCore gen' rc b = processCore gen rc b := by
  intro b
  induction b with
  | zero =>
    intro rc gen gen' h
    have h0 : gen' rc = gen rc := h rc le_rfl (by omega)
    simp [processCore, h0]
  | succ n ih =>
    intro rc gen gen' h
    have h0 : gen' rc = gen rc := h rc le_rfl (by omega)
    simp only [processCore, h0]
    rcases hn : normalizeGen (gen rc) with _ | s
    · simp only [hn]
      exact ih (rc + 1) gen gen' (fun i h1 h2 => h i (by omega) (by omega))
    · rcases hp : tryParseAttempt s with _ | doc
      · simp only [hn, hp]
        exact ih (rc + 1) gen gen' (fun i h1 h2 => h i (by omega) (by omega))
      · simp only [hn, hp]

/-- When every attempt inside the budget fails, the retry loop ends in
one of the two fixed error responses. -/
theorem processCore_allFail : ∀ (b rc : Nat) (gen : Nat → Option String),
    (∀ i, rc ≤ i → i ≤ rc + b → attemptFails (gen i) = true) →
    processCore gen rc b = LPResp.errorResp emptyGenMessage ∨
      processCore gen rc b = LPResp.errorResp invalidPathMessage := by
  intro b
  induction b with
  | zero =>
    intro rc gen h
    rcases attemptFails_cases (gen rc) (h rc le_rfl (by omega)) with hn | ⟨s, hn, hp⟩
    · simp [processCore, hn]
    · simp [processCore, hn, hp]
  | succ n ih =>
    intro rc gen h
    rcases attemptFails_cases (gen rc) (h rc le_rfl (by omega)) with hn | ⟨s, hn, hp⟩
    · simpa [processCore, hn] using
        ih (rc + 1) gen (fun i h1 h2 => h i (by omega) (by omega))
    · simpa [processCore, hn, hp] using
        ih (rc + 1) gen (fun i h1 h2 => h i (by omega) (by omega))

/-- C3: with `max_retries = 3`, when all three possible attempts fail
(empty generation, unparsable text, or invalid schema), the query
returns one of the two fixed user-facing apology responses (a value, not
an exception), and the result depends only on the first three generator
responses — the generator is consulted at most 3 times. -/
theorem claim_C3 : ∀ gen : Nat → Option String,
    (∀ i, i < 3 → attemptFails (gen i) = true) →
    ((process_learning_path_query gen 0 3 = LPResp.errorResp emptyGenMessage ∨
        process_learning_path_query gen 0 3 = LPResp.errorResp invalidPathMessage) ∧
      ∀ gen' : Nat → Option String, (∀ i, i < 3 → gen' i = gen i) →
        process_learning_path_query gen' 0 3 = process_learning_path_query gen 0 3) := by
  intro gen h
  constructor
  · have hall := processCore_allFail 2 0 gen (fun i h1 h2 => h i (by omega))
    simpa [process_learning_path_query] using hall
  · intro gen' h'
    have hc := processCore_congr 2 0 gen gen' (fun i h1 h2 => h' i (by omega))
    simpa [process_learning_path_query] using hc

/-- C3 witness: a generator that always produces unparsable text ends in
a fixed apology response after the three attempts. -/
theorem claim_C3_witness :
    (process_learning_path_query (fun _ => some ("garbage")) 0 3 =
        LPResp.errorResp emptyGenMessage ∨
      process_learning_path_query (fun _ => some ("garbage")) 0 3 =
        LPResp.errorResp invalidPathMessage) ∧
      process_learning_path_query (fun _ => some ("garbage")) 0 3 =
        process_learning_path_query (fun _ => some ("garbage")) 0 3 :=
  ⟨(claim_C3 (fun _ => some ("garbage"))
      (fun _ _ => (by decide : attemptFails (some ("garbage")) = true))).1,
    (claim_C3 (fun _ => some ("garbage"))
        (fun _ _ => (by decide : attemptFails (some ("garbage")) = true))).2
      (fun _ => some ("garbage")) (fun _ _ => rfl)⟩
